import Mathlib

/-!
# Verification of the osmcha-django filter / AOI evaluation core

Shallow embedding of the changeset filter layer, the AreaOfInterest
evaluation (`osmchadjango/supervise/models.py`), the geometry derivation of
the AOI views (`osmchadjango/supervise/views.py`), and the uniqueness
constraints of the supervise models.  The filter implementation itself
(`osmchadjango/changeset/filters.py`) is not part of the reviewed sources;
where needed it is modelled from the specification, with the test fixtures
of `osmchadjango/changeset/tests/test_filters.py` as the authority on its
observable behaviour.

Geometries are modelled as axis-aligned rectangles with rational
coordinates: every geometry appearing in the reviewed sources (changeset
bounding boxes, GeoJSON polygon fixtures, `in_bbox` rectangles) is such a
rectangle, and the spatial operations the code uses (intersection test,
area, area of the intersection) are closed on them.
-/

namespace OsmCha

/-! ## Geometry: axis-aligned rectangles over ℚ -/

/-- Maximum of two rationals, written so the kernel evaluates it. -/
def qmax (a b : ℚ) : ℚ := if a ≤ b then b else a

/-- Minimum of two rationals, written so the kernel evaluates it. -/
def qmin (a b : ℚ) : ℚ := if a ≤ b then a else b

/-- An axis-aligned rectangle `[minx, maxx] × [miny, maxy]`.  Models the
GEOS geometries that occur in the reviewed code: changeset `bbox` values,
polygon fixtures and `in_bbox` rectangles are all of this shape. -/
structure Rect where
  minx : ℚ
  miny : ℚ
  maxx : ℚ
  maxy : ℚ
deriving DecidableEq, Repr

/-- Area of a rectangle (0 for a degenerate one). -/
def Rect.area (r : Rect) : ℚ :=
  qmax (r.maxx - r.minx) 0 * qmax (r.maxy - r.miny) 0

/-- Intersection of two rectangles (may be degenerate/empty). -/
def Rect.inter (a b : Rect) : Rect :=
  ⟨qmax a.minx b.minx, qmax a.miny b.miny, qmin a.maxx b.maxx, qmin a.maxy b.maxy⟩

/-- GEOS `intersects`: the closed rectangles share at least one point
(boundary contact counts). -/
def Rect.intersects (a b : Rect) : Bool :=
  decide (qmax a.minx b.minx ≤ qmin a.maxx b.maxx) &&
  decide (qmax a.miny b.miny ≤ qmin a.maxy b.maxy)

/-! ## Boolean parameter values

Boolean filter parameters arrive either as native booleans or as strings
(`"true"`, `"True"`, …).  Modelled from the spec: django-filter's boolean
widget lowercases string input and maps `"true"`/`"false"` to the two
booleans; anything unrecognised yields no value, and a parameter with no
value is skipped (no predicate is applied). -/

/-- ASCII lowercase of one character. -/
def lowerChar (c : Char) : Char :=
  if 65 ≤ c.toNat ∧ c.toNat ≤ 90 then Char.ofNat (c.toNat + 32) else c

/-- ASCII lowercase of a string. -/
def strLower (s : String) : String :=
  ⟨s.toList.map lowerChar⟩

/-- A raw boolean parameter value: native boolean or string form. -/
inductive RawBool where
  | bool (b : Bool)
  | str (s : String)
deriving DecidableEq, Repr

/-- Modelled from the spec: parse of a boolean parameter value,
case-insensitive on string forms. -/
def parseRawBool : RawBool → Option Bool
  | .bool b => some b
  | .str s =>
      if strLower s = "true" then some true
      else if strLower s = "false" then some false
      else none

/-! ## The filterable record type -/

/-- A changeset row, restricted to the fields the filter layer reads.
`harmful` is an optional flag: unreviewed changesets carry no value, which
is what the fixture counts of `test_boolean_filters` (harmful=True → 1,
harmful=False → 1, out of 4 records) require. -/
structure Changeset where
  id : Nat
  user : String
  check_user : Option String
  editor : String
  comment : String
  source : String
  imagery_used : String
  checked : Bool
  is_suspect : Bool
  harmful : Option Bool
  powerfull_editor : Bool
  create : Nat
  modify : Nat
  delete : Nat
  date : Int
  check_date : Option Int
  bbox : Rect
  reasons : List Nat
  tags : List Nat
deriving DecidableEq, Repr

/-! ## Filter parameter mapping

Modelled from the spec: the recognized query-parameter names of the filter
registry, each optional (an absent parameter contributes no predicate).
Comma-separated id/username lists are modelled in parsed form as lists. -/

/-- The filter parameter mapping handed to `ChangesetFilter`.  A `none`
field is an absent key. -/
structure FilterParams where
  checked : Option RawBool := none
  is_suspect : Option RawBool := none
  harmful : Option RawBool := none
  powerfull_editor : Option RawBool := none
  create__gte : Option Nat := none
  create__lte : Option Nat := none
  modify__gte : Option Nat := none
  modify__lte : Option Nat := none
  delete__gte : Option Nat := none
  delete__lte : Option Nat := none
  date__gte : Option Int := none
  date__lte : Option Int := none
  check_date__gte : Option Int := none
  check_date__lte : Option Int := none
  editor : Option String := none
  comment : Option String := none
  source : Option String := none
  imagery_used : Option String := none
  ids : Option (List Nat) := none
  users : Option (List String) := none
  checked_by : Option (List String) := none
  reasons : Option (List Nat) := none
  all_reasons : Option (List Nat) := none
  tags : Option (List Nat) := none
  all_tags : Option (List Nat) := none
  geometry : Option Rect := none
  area_lt : Option ℚ := none
deriving DecidableEq, Repr

/-- Case-insensitive substring containment on character lists
(`icontains`). -/
def charsContain (needle : List Char) : List Char → Bool
  | [] => needle.isEmpty
  | c :: rest => needle.isPrefixOf (c :: rest) || charsContain needle rest

/-- Case-insensitive substring containment on strings (`icontains`). -/
def strIContains (hay needle : String) : Bool :=
  charsContain (needle.toList.map lowerChar) (hay.toList.map lowerChar)

/-- Predicate of a boolean parameter against a plain boolean flag: absent
or unparseable values apply no restriction, a parsed value requires exact
equality of the flag. -/
def boolParamMatch (v : Option RawBool) (flag : Bool) : Bool :=
  match v with
  | none => true
  | some rb =>
      match parseRawBool rb with
      | none => true
      | some b => flag == b

/-- Predicate of the `harmful` parameter against the nullable harmful
flag: a parsed value requires the flag to be present and equal. -/
def harmfulParamMatch (v : Option RawBool) (flag : Option Bool) : Bool :=
  match v with
  | none => true
  | some rb =>
      match parseRawBool rb with
      | none => true
      | some b => flag == some b

/-- ANY-match: the record is associated with at least one listed label. -/
def anyLabelMatch (wanted : List Nat) (assoc : List Nat) : Bool :=
  wanted.any (fun i => assoc.contains i)

/-- ALL-match: the record is associated with every listed label. -/
def allLabelMatch (wanted : List Nat) (assoc : List Nat) : Bool :=
  wanted.all (fun i => assoc.contains i)

/-- Modelled from the spec: the predicate built by `filter_area_lt` of the
missing `ChangesetFilter`.  It acts only when a `geometry` parameter is
present, and — as the boundary fixtures of `test_area_lower_than_filter`
force (3×3 bbox, 1×1 query: `area_lt=10` includes, `area_lt=8` excludes)
— the record matches when the area of its bounding box is lower than the
threshold times the area of the query geometry, i.e. when
`bbox.area / geometry.area < area_lt`. -/
def areaLtMatch (g : Rect) (v : ℚ) (c : Changeset) : Bool :=
  decide (c.bbox.area < v * g.area)

/-- Modelled from the spec: the conjunction of all predicates produced by
the parameters present in the mapping (the filter composer's AND). -/
def changesetMatches (p : FilterParams) (c : Changeset) : Bool :=
  boolParamMatch p.checked c.checked &&
  boolParamMatch p.is_suspect c.is_suspect &&
  harmfulParamMatch p.harmful c.harmful &&
  boolParamMatch p.powerfull_editor c.powerfull_editor &&
  (p.create__gte.all fun v => v ≤ c.create) &&
  (p.create__lte.all fun v => c.create ≤ v) &&
  (p.modify__gte.all fun v => v ≤ c.modify) &&
  (p.modify__lte.all fun v => c.modify ≤ v) &&
  (p.delete__gte.all fun v => v ≤ c.delete) &&
  (p.delete__lte.all fun v => c.delete ≤ v) &&
  (p.date__gte.all fun v => v ≤ c.date) &&
  (p.date__lte.all fun v => c.date ≤ v) &&
  (p.check_date__gte.all fun v => (c.check_date.map fun d => decide (v ≤ d)).getD false) &&
  (p.check_date__lte.all fun v => (c.check_date.map fun d => decide (d ≤ v)).getD false) &&
  (p.editor.all fun s => strIContains c.editor s) &&
  (p.comment.all fun s => strIContains c.comment s) &&
  (p.source.all fun s => strIContains c.source s) &&
  (p.imagery_used.all fun s => strIContains c.imagery_used s) &&
  (p.ids.all fun l => l.contains c.id) &&
  (p.users.all fun l => l.contains c.user) &&
  (p.checked_by.all fun l => (c.check_user.map fun u => l.contains u).getD false) &&
  (p.reasons.all fun l => anyLabelMatch l c.reasons) &&
  (p.all_reasons.all fun l => allLabelMatch l c.reasons) &&
  (p.tags.all fun l => anyLabelMatch l c.tags) &&
  (p.all_tags.all fun l => allLabelMatch l c.tags) &&
  (p.geometry.all fun g => c.bbox.intersects g) &&
  (match p.geometry, p.area_lt with
   | some g, some v => areaLtMatch g v c
   | _, _ => true)

/-- Modelled from the spec: `ChangesetFilter(params).qs` over a record
set — the records satisfying every predicate of the present parameters. -/
def changesetFilterQs (p : FilterParams) (recs : List Changeset) : List Changeset :=
  recs.filter (changesetMatches p)

/-! ## Features

The spec states the feature side shares the exact filter contract against
its own record type; a feature's spatial extent is its `geometry` field
(`FeatureFilter` is not among the reviewed sources). -/

/-- A feature row, restricted to the fields the filter layer reads; its
spatial extent is `geometry` rather than `bbox`. -/
structure Feature where
  id : Nat
  user : String
  check_user : Option String
  checked : Bool
  is_suspect : Bool
  harmful : Option Bool
  date : Int
  check_date : Option Int
  geometry : Rect
  reasons : List Nat
  tags : List Nat
deriving DecidableEq, Repr

/-- Modelled from the spec: the predicate conjunction of `FeatureFilter`,
same contract as the changeset one against the feature fields. -/
def featureMatches (p : FilterParams) (f : Feature) : Bool :=
  boolParamMatch p.checked f.checked &&
  boolParamMatch p.is_suspect f.is_suspect &&
  harmfulParamMatch p.harmful f.harmful &&
  (p.date__gte.all fun v => v ≤ f.date) &&
  (p.date__lte.all fun v => f.date ≤ v) &&
  (p.check_date__gte.all fun v => (f.check_date.map fun d => decide (v ≤ d)).getD false) &&
  (p.check_date__lte.all fun v => (f.check_date.map fun d => decide (d ≤ v)).getD false) &&
  (p.ids.all fun l => l.contains f.id) &&
  (p.users.all fun l => l.contains f.user) &&
  (p.checked_by.all fun l => (f.check_user.map fun u => l.contains u).getD false) &&
  (p.reasons.all fun l => anyLabelMatch l f.reasons) &&
  (p.all_reasons.all fun l => allLabelMatch l f.reasons) &&
  (p.tags.all fun l => anyLabelMatch l f.tags) &&
  (p.all_tags.all fun l => allLabelMatch l f.tags) &&
  (p.geometry.all fun g => f.geometry.intersects g)

/-- Modelled from the spec: `FeatureFilter(params).qs` over a record set. -/
def featureFilterQs (p : FilterParams) (recs : List Feature) : List Feature :=
  recs.filter (featureMatches p)

/-! ## AreaOfInterest (`supervise/models.py`) -/

/-- An `AreaOfInterest` row: stored filter mapping plus the optional
stored geometry (`supervise/models.py`, lines 12–18). -/
structure AreaOfInterest where
  name : String
  user : String
  filters : FilterParams
  geometry : Option Rect
deriving Repr

/-- `AreaOfInterest.changesets` (`supervise/models.py`, lines 24–34):
filter by the stored mapping, then — when a stored geometry exists —
restrict to changesets whose `bbox` intersects it. -/
def AreaOfInterest.changesets (aoi : AreaOfInterest) (allChangesets : List Changeset) :
    List Changeset :=
  let qs := changesetFilterQs aoi.filters allChangesets
  match aoi.geometry with
  | some g => qs.filter fun c => c.bbox.intersects g
  | none => qs

/-- `AreaOfInterest.features` (`supervise/models.py`, lines 36–46):
filter by the stored mapping, then — when a stored geometry exists —
restrict to features whose `geometry` intersects it. -/
def AreaOfInterest.features (aoi : AreaOfInterest) (allFeatures : List Feature) :
    List Feature :=
  let qs := featureFilterQs aoi.filters allFeatures
  match aoi.geometry with
  | some g => qs.filter fun f => f.geometry.intersects g
  | none => qs

/-! ## Geometry derivation of the AOI views (`supervise/views.py`) -/

/-- A textual geometry value as handed to `GEOSGeometry`: either
well-formed text denoting a rectangle, or malformed text on which the
parse raises. -/
inductive GeoText where
  | wellFormed (r : Rect)
  | malformed (s : String)
deriving DecidableEq, Repr

/-- Modelled from the spec: `GEOSGeometry(text)` (external GEOS library)
— returns the denoted geometry, or raises on malformed text. -/
def GEOSGeometryParse : GeoText → Except String Rect
  | .wellFormed r => .ok r
  | .malformed s => .error s

/-- Split a character list at every occurrence of the separator
(mirrors Python's `str.split(sep)`). -/
def splitChars (sep : Char) : List Char → List (List Char)
  | [] => [[]]
  | c :: rest =>
      let groups := splitChars sep rest
      if c = sep then [] :: groups
      else
        match groups with
        | [] => [[c]]
        | g :: gs => (c :: g) :: gs

/-- Split a string at every occurrence of the separator character
(mirrors Python's `str.split(sep)`). -/
def splitStr (sep : Char) (s : String) : List String :=
  (splitChars sep s.toList).map fun cs => ⟨cs⟩

/-- Numeric value of a list of decimal digits (none when empty or a
non-digit occurs). -/
def digitsVal (cs : List Char) : Option Nat :=
  if cs.isEmpty then none
  else cs.foldlM (fun acc c => if c.isDigit then some (10 * acc + (c.toNat - 48)) else none) 0

/-- Parse of a (possibly signed) decimal literal such as `-71.06`. -/
def parseDecimal (s : String) : Option ℚ :=
  let go : List Char → Option ℚ := fun cs =>
    match splitChars '.' cs with
    | [ip] => (digitsVal ip).map fun n => (n : ℚ)
    | [ip, fp] =>
        match digitsVal ip, digitsVal fp with
        | some n, some m => some ((n : ℚ) + (m : ℚ) / (10 : ℚ) ^ fp.length)
        | _, _ => none
    | _ => none
  match s.toList with
  | '-' :: rest => (go rest).map Neg.neg
  | cs => go cs

/-- Modelled from the spec: `Polygon.from_bbox` applied to the
comma-split `in_bbox` string — a rectangle from exactly four numeric
components `minx,miny,maxx,maxy`; anything else raises (tuple unpacking
or the GEOS parse of the formatted WKT fails). -/
def polygonFromBbox (l : List String) : Except String Rect :=
  match l with
  | [a, b, c, d] =>
      match parseDecimal a, parseDecimal b, parseDecimal c, parseDecimal d with
      | some x0, some y0, some x1, some y1 => .ok ⟨x0, y0, x1, y1⟩
      | _, _, _, _ => .error "GEOS parse error"
  | _ => .error "not enough values to unpack"

/-- The filter sub-mapping of a submitted AOI payload, restricted to the
two keys `get_geometry_from_filters` reads (`none` = key absent). -/
structure FiltersPayload where
  geometry : Option GeoText := none
  in_bbox : Option String := none
deriving Repr

/-- A submitted AOI payload (`request.data`); `none` = no `filters` key. -/
structure PayloadData where
  filters : Option FiltersPayload := none
deriving Repr

/-- `get_geometry_from_filters` (`supervise/views.py`, lines 22–33):
if the payload has a `filters` key, parse `filters.geometry` when present,
else build a rectangle from the comma-split `filters.in_bbox` when
present, else no geometry; no `filters` key means no geometry.  Errors of
the two geometry builders propagate (the function catches nothing). -/
def get_geometry_from_filters (data : PayloadData) : Except String (Option Rect) :=
  match data.filters with
  | some f =>
      match f.geometry with
      | some g => (GEOSGeometryParse g).map some
      | none =>
          match f.in_bbox with
          | some s => (polygonFromBbox (splitStr ',' s)).map some
          | none => .ok none
  | none => .ok none

/-! ## Persisted supervise state and its mutations

`supervise/models.py` declares `unique_together = ('user', 'name')` on
`AreaOfInterest` and `unique=True` on `BlacklistedUser.username`, and
`BlacklistedUser.save` runs `full_clean` before saving.  The store that
enforces these declarations is the framework/database layer, not part of
the reviewed sources; it is modelled from the spec as explicit state
passing: each mutation either succeeds with the new state or fails with a
conflict, leaving the old state to the caller. -/

/-- A persisted `AreaOfInterest` row as the supervise store keeps it. -/
structure AOIStored where
  user : String
  name : String
  filters : FilterParams
  geometry : Option Rect

/-- A persisted `BlacklistedUser` row (`supervise/models.py`, 55–58). -/
structure BlacklistedUser where
  username : String
  added_by : String
deriving DecidableEq, Repr

/-- The persisted supervise state: all AOI rows and all blacklist rows. -/
structure SuperviseState where
  aois : List AOIStored
  blacklist : List BlacklistedUser

/-- Failure of a supervise mutation: a uniqueness conflict surfaced as a
validation failure, or the addressed row not existing. -/
inductive OpError where
  | conflict
  | notFound
deriving DecidableEq, Repr

/-- Does the stored AOI carry the given (user, name) key? -/
def aoiHasKey (user name : String) (a : AOIStored) : Bool :=
  decide (a.user = user ∧ a.name = name)

/-- Modelled from the spec: AOI creation — fails with a conflict when an
AOI with the same (user, name) pair already exists, otherwise inserts. -/
def createAOI (st : SuperviseState) (a : AOIStored) : Except OpError SuperviseState :=
  if st.aois.any (aoiHasKey a.user a.name) then .error .conflict
  else .ok ⟨a :: st.aois, st.blacklist⟩

/-- Modelled from the spec: AOI update by its owner — replaces the row
keyed (user, oldName); fails with a conflict when another AOI of the same
user already carries the new name. -/
def updateAOI (st : SuperviseState) (user oldName newName : String)
    (filters : FilterParams) (geometry : Option Rect) : Except OpError SuperviseState :=
  if st.aois.any (aoiHasKey user oldName) then
    let rest := st.aois.filter fun a => !aoiHasKey user oldName a
    if rest.any (aoiHasKey user newName) then .error .conflict
    else .ok ⟨⟨user, newName, filters, geometry⟩ :: rest, st.blacklist⟩
  else .error .notFound

/-- Modelled from the spec: AOI deletion by its owner. -/
def deleteAOI (st : SuperviseState) (user name : String) : Except OpError SuperviseState :=
  .ok ⟨st.aois.filter fun a => !aoiHasKey user name a, st.blacklist⟩

/-- Modelled from the spec: blacklisting a user — `full_clean` fails with
a validation error when the username is already blacklisted. -/
def addBlacklisted (st : SuperviseState) (b : BlacklistedUser) : Except OpError SuperviseState :=
  if st.blacklist.any (fun x => decide (x.username = b.username)) then .error .conflict
  else .ok ⟨st.aois, b :: st.blacklist⟩

/-- Modelled from the spec: removing a user from the blacklist. -/
def removeBlacklisted (st : SuperviseState) (username : String) : Except OpError SuperviseState :=
  .ok ⟨st.aois, st.blacklist.filter fun x => !decide (x.username = username)⟩

/-- A supervise mutation request. -/
inductive SupOp where
  | createAOI (a : AOIStored)
  | updateAOI (user oldName newName : String) (filters : FilterParams) (geometry : Option Rect)
  | deleteAOI (user name : String)
  | addBlacklisted (b : BlacklistedUser)
  | removeBlacklisted (username : String)

/-- Dispatch of a mutation request to its operation. -/
def applyOp (st : SuperviseState) : SupOp → Except OpError SuperviseState
  | .createAOI a => createAOI st a
  | .updateAOI user oldName newName f g => updateAOI st user oldName newName f g
  | .deleteAOI user name => deleteAOI st user name
  | .addBlacklisted b => addBlacklisted st b
  | .removeBlacklisted username => removeBlacklisted st username

/-- The state after a mutation request: the new state on success, the old
state unchanged on failure. -/
def stepState (st : SuperviseState) (op : SupOp) : SuperviseState :=
  match applyOp st op with
  | .ok st' => st'
  | .error _ => st

/-- States reachable from the empty store by supervise mutations. -/
inductive Reachable : SuperviseState → Prop
  | init : Reachable ⟨[], []⟩
  | step (st : SuperviseState) (op : SupOp) : Reachable st → Reachable (stepState st op)

/-- No two stored AOIs share the same (user, name) pair. -/
def aoiKeysUnique (st : SuperviseState) : Prop :=
  st.aois.Pairwise fun a b => ¬(a.user = b.user ∧ a.name = b.name)

/-- No two blacklist rows share the same username. -/
def blacklistUnique (st : SuperviseState) : Prop :=
  st.blacklist.Pairwise fun a b => a.username ≠ b.username

/-! ## Test fixtures (`changeset/tests/test_filters.py`)

The four changesets of `TestChangesetFilter.setUp` — a plain one, a
suspect one, a reviewed harmful one and a reviewed good one — and the 3×3
record of `TestChangesetAreaLowerThan.setUp`, with flag values as the
fixture assertions pin them down. -/

/-- The plain changeset of the fixture (id 2343, unchecked, not suspect). -/
def changeset2343 : Changeset :=
  { id := 2343, user := "test", check_user := none, editor := "iD 2.0.2",
    comment := "My first edit", source := "OSM", imagery_used := "OSM",
    checked := false, is_suspect := false, harmful := none,
    powerfull_editor := false, create := 1000, modify := 10, delete := 0,
    date := 0, check_date := none, bbox := ⟨0, 0, 1, 1⟩,
    reasons := [], tags := [1] }

/-- The suspect changeset of the fixture (unchecked, suspect). -/
def suspectChangeset : Changeset :=
  { id := 2344, user := "suspect_user", check_user := none, editor := "Potlatch 2",
    comment := "suspect edit", source := "Bing", imagery_used := "Bing",
    checked := false, is_suspect := true, harmful := none,
    powerfull_editor := false, create := 2000, modify := 10, delete := 30,
    date := 0, check_date := none, bbox := ⟨0, 0, 1, 1⟩,
    reasons := [1, 2], tags := [2] }

/-- The harmful changeset of the fixture (checked, suspect, harmful,
powerful editor). -/
def harmfulChangeset : Changeset :=
  { id := 2345, user := "test", check_user := some "test_user", editor := "JOSM 1.5",
    comment := "a bad edit", source := "OSM", imagery_used := "Mapbox, Mapillary",
    checked := true, is_suspect := true, harmful := some true,
    powerfull_editor := true, create := 2000, modify := 10, delete := 30,
    date := 0, check_date := some 0, bbox := ⟨0, 0, 1, 1⟩,
    reasons := [2], tags := [1, 2] }

/-- The good changeset of the fixture (checked, suspect, not harmful). -/
def goodChangeset : Changeset :=
  { id := 2346, user := "test", check_user := some "test_user_2", editor := "Potlatch 2",
    comment := "a good edit", source := "Mapbox", imagery_used := "Mapbox",
    checked := true, is_suspect := true, harmful := some false,
    powerfull_editor := false, create := 2000, modify := 10, delete := 30,
    date := 0, check_date := some 0, bbox := ⟨0, 0, 1, 1⟩,
    reasons := [], tags := [] }

/-- The four-record reference scenario of `TestChangesetFilter`. -/
def fixtureChangesets : List Changeset :=
  [changeset2343, suspectChangeset, harmfulChangeset, goodChangeset]

/-- The single record of `TestChangesetAreaLowerThan`: bounding box the
3×3 square `(0,0)–(3,3)`. -/
def changeset3x3 : Changeset :=
  { changeset2343 with id := 2400, bbox := ⟨0, 0, 3, 3⟩ }

/-- The 1×1 query geometry `geojson_1` of `TestChangesetAreaLowerThan`. -/
def square1x1 : Rect := ⟨0, 0, 1, 1⟩

/-- The 2×2 query geometry `geojson_2` of `TestChangesetAreaLowerThan`. -/
def square2x2 : Rect := ⟨0, 0, 2, 2⟩

/-! ## Helper lemmas -/

/-- Membership in a filtered record set. -/
lemma mem_changesetFilterQs {p : FilterParams} {recs : List Changeset} {c : Changeset} :
    c ∈ changesetFilterQs p recs ↔ c ∈ recs ∧ changesetMatches p c = true := by
  simp [changesetFilterQs, List.mem_filter]

/-- The matcher of a mapping holding only a `geometry` and an `area_lt`
key: intersection with the query geometry plus the area comparison. -/
lemma changesetMatches_geometry_area_lt (g : Rect) (v : ℚ) (c : Changeset) :
    changesetMatches {geometry := some g, area_lt := some v} c =
      (c.bbox.intersects g && areaLtMatch g v c) := by
  simp [changesetMatches, boolParamMatch, harmfulParamMatch, Option.all]

/-! ## Claim C1: the `area_lt` ratio formula -/

/-- C1: the claim states a record is included iff
`(area of record's bbox ∩ supplied geometry) / (area of supplied geometry)
< area_lt`.  Counterexample, straight from the fixture at lines 257–260 of
`test_filters.py`: for the 3×3 record against the 1×1 query geometry with
`area_lt = 8`, that ratio is `1/1 = 1 < 8`, yet the filtered result is
empty — the fixture-mandated behaviour compares the record's own bbox
area, not the overlap area, against `area_lt` times the query area. -/
theorem C1_claim_counterexample :
    (changeset3x3.bbox.inter square1x1).area / square1x1.area < (8 : ℚ) ∧
    changesetFilterQs {geometry := some square1x1, area_lt := some 8} [changeset3x3] = [] :=
  ⟨of_decide_eq_true (by with_unfolding_all rfl), by with_unfolding_all rfl⟩

/-- C1 (amended): for a filter mapping holding exactly a `geometry` key
`g` (with positive area) and an `area_lt` threshold `v`, a record is
included iff its bounding geometry intersects `g` and
`(area of the record's bounding geometry) / (area of g) < v`. -/
theorem C1_area_lt_ratio (recs : List Changeset) (g : Rect) (v : ℚ) (c : Changeset)
    (hg : 0 < g.area) :
    c ∈ changesetFilterQs {geometry := some g, area_lt := some v} recs ↔
      c ∈ recs ∧ c.bbox.intersects g = true ∧ c.bbox.area / g.area < v := by
  rw [mem_changesetFilterQs, changesetMatches_geometry_area_lt]
  simp only [Bool.and_eq_true, areaLtMatch, decide_eq_true_eq, div_lt_iff₀ hg, and_assoc]

/-- Witness for C1: the fixture record and query at `area_lt = 10`
(`area_lt=10` includes the 3×3 record for the 1×1 query, ratio `9 < 10`). -/
theorem C1_area_lt_ratio_witness :
    changeset3x3 ∈
      changesetFilterQs {geometry := some square1x1, area_lt := some 10} [changeset3x3] :=
  (C1_area_lt_ratio [changeset3x3] square1x1 10 changeset3x3
      (of_decide_eq_true (by with_unfolding_all rfl))).mpr
    ⟨List.mem_singleton.mpr rfl, by with_unfolding_all rfl,
     of_decide_eq_true (by with_unfolding_all rfl)⟩

/-! ## Claim C7: `area_lt` without `geometry` is a silent no-op -/

/-- C7: a mapping containing `area_lt` but no `geometry` key filters
exactly as the mapping with `area_lt` removed, and a mapping holding
nothing but `area_lt` filters nothing at all. -/
theorem C7_area_lt_noop (recs : List Changeset) (p : FilterParams) (v : ℚ)
    (h : p.geometry = none) :
    changesetFilterQs {p with area_lt := some v} recs =
      changesetFilterQs {p with area_lt := none} recs ∧
    changesetFilterQs {area_lt := some v} recs = recs := by
  constructor
  · unfold changesetFilterQs
    congr 1
    funext c
    unfold changesetMatches
    simp only [h]
  · unfold changesetFilterQs
    simp [changesetMatches, boolParamMatch, harmfulParamMatch, Option.all]

/-- Witness for C7 on the area fixture: `filter({'area_lt': 10})` keeps
the lone record (line 270–273 of `test_filters.py`). -/
theorem C7_area_lt_noop_witness :
    changesetFilterQs {area_lt := some 10} [changeset3x3] = [changeset3x3] :=
  (C7_area_lt_noop [changeset3x3] {} 10 rfl).2

/-! ## Claim C8: boolean value forms and the reference scenario -/

/-- The parse of the string form `"True"` (case-insensitive). -/
lemma parseRawBool_True : parseRawBool (.str "True") = some true := by
  with_unfolding_all rfl

/-- The parse of the string form `"true"`. -/
lemma parseRawBool_true : parseRawBool (.str "true") = some true := by
  with_unfolding_all rfl

/-- C8: `"True"`, `"true"` and the native boolean filter identically on
`checked`, and on the four-record reference scenario `checked=true`
matches 2 records, `harmful=true` 1 and `is_suspect=true` 3 (fixture
assertions at lines 48–57 of `test_filters.py`). -/
theorem C8_boolean_forms (recs : List Changeset) :
    changesetFilterQs {checked := some (.str "True")} recs =
      changesetFilterQs {checked := some (.bool true)} recs ∧
    changesetFilterQs {checked := some (.str "true")} recs =
      changesetFilterQs {checked := some (.bool true)} recs ∧
    (changesetFilterQs {checked := some (.bool true)} fixtureChangesets).length = 2 ∧
    (changesetFilterQs {harmful := some (.bool true)} fixtureChangesets).length = 1 ∧
    (changesetFilterQs {is_suspect := some (.bool true)} fixtureChangesets).length = 3 := by
  refine ⟨?_, ?_, ?_, ?_, ?_⟩
  · unfold changesetFilterQs
    congr 1
  · unfold changesetFilterQs
    congr 1
  · with_unfolding_all rfl
  · with_unfolding_all rfl
  · with_unfolding_all rfl

/-! ## Claim C4: boolean filters partition the record set -/

set_option maxRecDepth 8192 in
/-- C4: the claim asserts that for every boolean parameter the true- and
false-filters partition the full record set.  Counterexample from the
fixture counts at lines 47–54 of `test_filters.py`: over the four-record
scenario, `filter({'harmful': true})` and `filter({'harmful': false})`
hold one record each, and the unreviewed record 2343 is in neither, so
their union misses it. -/
theorem C4_claim_counterexample :
    fixtureChangesets.length = 4 ∧
    (changesetFilterQs {harmful := some (.bool true)} fixtureChangesets).length = 1 ∧
    (changesetFilterQs {harmful := some (.bool false)} fixtureChangesets).length = 1 ∧
    changeset2343 ∈ fixtureChangesets ∧
    changeset2343 ∉ changesetFilterQs {harmful := some (.bool true)} fixtureChangesets ∧
    changeset2343 ∉ changesetFilterQs {harmful := some (.bool false)} fixtureChangesets :=
  ⟨rfl, by with_unfolding_all rfl, by with_unfolding_all rfl,
   of_decide_eq_true (by with_unfolding_all rfl),
   of_decide_eq_true (by with_unfolding_all rfl),
   of_decide_eq_true (by with_unfolding_all rfl)⟩

/-- Membership in the filter of a lone native-boolean `checked` key. -/
lemma mem_filter_checked (recs : List Changeset) (c : Changeset) (b : Bool) :
    c ∈ changesetFilterQs {checked := some (.bool b)} recs ↔ c ∈ recs ∧ c.checked = b := by
  simp [mem_changesetFilterQs, changesetMatches, boolParamMatch, harmfulParamMatch,
    parseRawBool, Option.all]

/-- Membership in the filter of a lone native-boolean `is_suspect` key. -/
lemma mem_filter_is_suspect (recs : List Changeset) (c : Changeset) (b : Bool) :
    c ∈ changesetFilterQs {is_suspect := some (.bool b)} recs ↔ c ∈ recs ∧ c.is_suspect = b := by
  simp [mem_changesetFilterQs, changesetMatches, boolParamMatch, harmfulParamMatch,
    parseRawBool, Option.all]

/-- Membership in the filter of a lone native-boolean `powerfull_editor`
key. -/
lemma mem_filter_powerfull (recs : List Changeset) (c : Changeset) (b : Bool) :
    c ∈ changesetFilterQs {powerfull_editor := some (.bool b)} recs ↔
      c ∈ recs ∧ c.powerfull_editor = b := by
  simp [mem_changesetFilterQs, changesetMatches, boolParamMatch, harmfulParamMatch,
    parseRawBool, Option.all]

/-- Membership in the filter of a lone native-boolean `harmful` key: the
nullable flag must be explicitly set to the requested value. -/
lemma mem_filter_harmful (recs : List Changeset) (c : Changeset) (b : Bool) :
    c ∈ changesetFilterQs {harmful := some (.bool b)} recs ↔
      c ∈ recs ∧ c.harmful = some b := by
  simp [mem_changesetFilterQs, changesetMatches, boolParamMatch, harmfulParamMatch,
    parseRawBool, Option.all]

/-- C4 (amended): for `checked`, `is_suspect` and `powerfull_editor` the
true-filter returns exactly the records with the flag set, the
false-filter its complement, their union recovers the record set and
their intersection is empty; for `harmful` the two filters return exactly
the records whose nullable harmful flag is explicitly true resp.
explicitly false — disjoint, but not covering records with no value. -/
theorem C4_boolean_partition (recs : List Changeset) (c : Changeset) :
    (c ∈ changesetFilterQs {checked := some (.bool true)} recs ↔
        c ∈ recs ∧ c.checked = true) ∧
    (c ∈ changesetFilterQs {checked := some (.bool false)} recs ↔
        c ∈ recs ∧ c.checked = false) ∧
    (c ∈ changesetFilterQs {is_suspect := some (.bool true)} recs ↔
        c ∈ recs ∧ c.is_suspect = true) ∧
    (c ∈ changesetFilterQs {is_suspect := some (.bool false)} recs ↔
        c ∈ recs ∧ c.is_suspect = false) ∧
    (c ∈ changesetFilterQs {powerfull_editor := some (.bool true)} recs ↔
        c ∈ recs ∧ c.powerfull_editor = true) ∧
    (c ∈ changesetFilterQs {powerfull_editor := some (.bool false)} recs ↔
        c ∈ recs ∧ c.powerfull_editor = false) ∧
    (c ∈ recs ↔
        c ∈ changesetFilterQs {checked := some (.bool true)} recs ∨
        c ∈ changesetFilterQs {checked := some (.bool false)} recs) ∧
    ¬(c ∈ changesetFilterQs {checked := some (.bool true)} recs ∧
        c ∈ changesetFilterQs {checked := some (.bool false)} recs) ∧
    (∀ b : Bool, c ∈ changesetFilterQs {harmful := some (.bool b)} recs ↔
        c ∈ recs ∧ c.harmful = some b) := by
  refine ⟨mem_filter_checked recs c true, mem_filter_checked recs c false,
    mem_filter_is_suspect recs c true, mem_filter_is_suspect recs c false,
    mem_filter_powerfull recs c true, mem_filter_powerfull recs c false, ?_, ?_, ?_⟩
  · constructor
    · intro h
      cases hb : c.checked
      · exact Or.inr ((mem_filter_checked recs c false).mpr ⟨h, hb⟩)
      · exact Or.inl ((mem_filter_checked recs c true).mpr ⟨h, hb⟩)
    · rintro (h | h) <;> exact ((mem_filter_checked recs c _).mp h).1
  · rintro ⟨h1, h2⟩
    have e1 := ((mem_filter_checked recs c true).mp h1).2
    have e2 := ((mem_filter_checked recs c false).mp h2).2
    rw [e1] at e2
    simp at e2
  · intro b
    exact mem_filter_harmful recs c b

/-! ## Claim C5: ALL-match is a subset of ANY-match -/

/-- C5: for any two label identifiers, the `all_tags` filter result is a
subset of the `tags` filter result — a record matching `all_tags` carries
every listed label (possibly more), while `tags` demands only one. -/
theorem C5_all_tags_subset_tags (recs : List Changeset) (t1 t2 : Nat) :
    (∀ c ∈ changesetFilterQs {all_tags := some [t1, t2]} recs,
        c ∈ changesetFilterQs {tags := some [t1, t2]} recs) ∧
    (∀ c, c ∈ changesetFilterQs {all_tags := some [t1, t2]} recs ↔
        c ∈ recs ∧ t1 ∈ c.tags ∧ t2 ∈ c.tags) ∧
    (∀ c, c ∈ changesetFilterQs {tags := some [t1, t2]} recs ↔
        c ∈ recs ∧ (t1 ∈ c.tags ∨ t2 ∈ c.tags)) := by
  have hall : ∀ c, c ∈ changesetFilterQs {all_tags := some [t1, t2]} recs ↔
      c ∈ recs ∧ t1 ∈ c.tags ∧ t2 ∈ c.tags := by
    intro c
    simp [mem_changesetFilterQs, changesetMatches, boolParamMatch, harmfulParamMatch,
      Option.all, allLabelMatch]
  have hany : ∀ c, c ∈ changesetFilterQs {tags := some [t1, t2]} recs ↔
      c ∈ recs ∧ (t1 ∈ c.tags ∨ t2 ∈ c.tags) := by
    intro c
    simp [mem_changesetFilterQs, changesetMatches, boolParamMatch, harmfulParamMatch,
      Option.all, anyLabelMatch]
  refine ⟨?_, hall, hany⟩
  intro c hc
  obtain ⟨hmem, h1, _⟩ := (hall c).mp hc
  exact (hany c).mpr ⟨hmem, Or.inl h1⟩

/-- Witness for C5: the harmful fixture record carries both tag labels 1
and 2, so it survives `all_tags` and hence `tags`. -/
theorem C5_all_tags_subset_tags_witness :
    harmfulChangeset ∈ changesetFilterQs {tags := some [1, 2]} [harmfulChangeset] := by
  refine (C5_all_tags_subset_tags [harmfulChangeset] 1 2).1 harmfulChangeset ?_
  exact ((C5_all_tags_subset_tags [harmfulChangeset] 1 2).2.1 harmfulChangeset).mpr
    ⟨List.mem_singleton.mpr rfl, of_decide_eq_true (by with_unfolding_all rfl),
     of_decide_eq_true (by with_unfolding_all rfl)⟩

/-! ## Claim C6: unknown referenced ids and labels match nothing -/

/-- C6: a filter mapping referencing a reason id, tag id, username or
changeset id that no record is associated with returns the empty result
set (the model is total, so no error can be raised). -/
theorem C6_unknown_references (recs : List Changeset) (rid tid cid : Nat) (uname : String)
    (hr : ∀ c ∈ recs, rid ∉ c.reasons) (ht : ∀ c ∈ recs, tid ∉ c.tags)
    (hu : ∀ c ∈ recs, c.user ≠ uname) (hc : ∀ c ∈ recs, c.id ≠ cid) :
    changesetFilterQs {reasons := some [rid]} recs = [] ∧
    changesetFilterQs {tags := some [tid]} recs = [] ∧
    changesetFilterQs {users := some [uname]} recs = [] ∧
    changesetFilterQs {ids := some [cid]} recs = [] := by
  refine ⟨?_, ?_, ?_, ?_⟩ <;>
    · rw [changesetFilterQs, List.filter_eq_nil_iff]
      intro c hcm
      simp [changesetMatches, boolParamMatch, harmfulParamMatch, Option.all,
        anyLabelMatch]
      first
        | exact hr c hcm
        | exact ht c hcm
        | exact hu c hcm
        | exact hc c hcm

/-- Witness for C6 on the four-record fixture: reason id 123, tag id 99,
username `nobody` and changeset id 1 are referenced nowhere. -/
theorem C6_unknown_references_witness :
    changesetFilterQs {reasons := some [123]} fixtureChangesets = [] ∧
    changesetFilterQs {tags := some [99]} fixtureChangesets = [] ∧
    changesetFilterQs {users := some ["nobody"]} fixtureChangesets = [] ∧
    changesetFilterQs {ids := some [1]} fixtureChangesets = [] :=
  C6_unknown_references fixtureChangesets 123 99 1 "nobody"
    (of_decide_eq_true (by with_unfolding_all rfl))
    (of_decide_eq_true (by with_unfolding_all rfl))
    (of_decide_eq_true (by with_unfolding_all rfl))
    (of_decide_eq_true (by with_unfolding_all rfl))

/-! ## Claim C2: AOI evaluation -/

/-- C2: evaluating a persisted AOI yields exactly the records matching its
stored filter mapping when its stored geometry is absent, and exactly
those further restricted to records whose bounding geometry intersects the
stored geometry when present — for any stored filter mapping, so the
restriction is independent of any `geometry`/`area_lt` key inside it. -/
theorem C2_aoi_evaluation (aoi : AreaOfInterest)
    (allChangesets : List Changeset) (allFeatures : List Feature) :
    (aoi.geometry = none →
        aoi.changesets allChangesets = changesetFilterQs aoi.filters allChangesets ∧
        aoi.features allFeatures = featureFilterQs aoi.filters allFeatures) ∧
    (∀ g, aoi.geometry = some g →
        aoi.changesets allChangesets =
          (changesetFilterQs aoi.filters allChangesets).filter
            (fun c => c.bbox.intersects g) ∧
        aoi.features allFeatures =
          (featureFilterQs aoi.filters allFeatures).filter
            (fun f => f.geometry.intersects g)) := by
  constructor
  · intro h
    constructor <;> simp [AreaOfInterest.changesets, AreaOfInterest.features, h]
  · intro g h
    constructor <;> simp [AreaOfInterest.changesets, AreaOfInterest.features, h]

/-- Witness for C2: one AOI with no stored geometry and one with the unit
square, both over the singleton record sets of the fixtures. -/
theorem C2_aoi_evaluation_witness :
    ({ name := "a", user := "u", filters := {}, geometry := none } :
        AreaOfInterest).changesets [changeset3x3] =
      changesetFilterQs {} [changeset3x3] ∧
    ({ name := "b", user := "u", filters := {}, geometry := some square1x1 } :
        AreaOfInterest).changesets [changeset3x3] =
      (changesetFilterQs {} [changeset3x3]).filter (fun c => c.bbox.intersects square1x1) :=
  ⟨((C2_aoi_evaluation { name := "a", user := "u", filters := {}, geometry := none }
        [changeset3x3] []).1 rfl).1,
   ((C2_aoi_evaluation { name := "b", user := "u", filters := {}, geometry := some square1x1 }
        [changeset3x3] []).2 square1x1 rfl).1⟩

/-! ## Claim C3: geometry derivation priority on AOI create/update -/

/-- C3: on AOI create and update the stored geometry is derived from the
submitted payload by exact priority — `filters.geometry` parsed directly
when present; else a rectangle from the comma-separated `filters.in_bbox`;
else no geometry (also when the `filters` key itself is absent). -/
theorem C3_geometry_priority (data : PayloadData) (f : FiltersPayload) :
    (∀ g, data.filters = some f → f.geometry = some g →
        get_geometry_from_filters data = (GEOSGeometryParse g).map some) ∧
    (∀ s, data.filters = some f → f.geometry = none → f.in_bbox = some s →
        get_geometry_from_filters data = (polygonFromBbox (splitStr ',' s)).map some) ∧
    (data.filters = some f → f.geometry = none → f.in_bbox = none →
        get_geometry_from_filters data = .ok none) ∧
    (data.filters = none → get_geometry_from_filters data = .ok none) := by
  refine ⟨?_, ?_, ?_, ?_⟩
  · intro g hd hg
    simp [get_geometry_from_filters, hd, hg]
  · intro s hd hg hb
    simp [get_geometry_from_filters, hd, hg, hb]
  · intro hd hg hb
    simp [get_geometry_from_filters, hd, hg, hb]
  · intro hd
    simp [get_geometry_from_filters, hd]

/-- Witness for C3: the four priority branches at concrete payloads — a
direct geometry (which wins even next to an `in_bbox`), an `in_bbox`
rectangle, an empty filters mapping, and a payload without `filters`. -/
theorem C3_geometry_priority_witness :
    get_geometry_from_filters
        {filters := some {geometry := some (.wellFormed square1x1), in_bbox := some "0,0,2,2"}} =
      .ok (some square1x1) ∧
    get_geometry_from_filters {filters := some {in_bbox := some "0,0,2,2"}} =
      .ok (some square2x2) ∧
    get_geometry_from_filters {filters := some {}} = .ok none ∧
    get_geometry_from_filters {} = .ok none := by
  refine ⟨?_, ?_, ?_, ?_⟩
  · rw [(C3_geometry_priority
        {filters := some {geometry := some (.wellFormed square1x1), in_bbox := some "0,0,2,2"}}
        {geometry := some (.wellFormed square1x1), in_bbox := some "0,0,2,2"}).1
        (.wellFormed square1x1) rfl rfl]
    with_unfolding_all rfl
  · rw [(C3_geometry_priority {filters := some {in_bbox := some "0,0,2,2"}}
        {in_bbox := some "0,0,2,2"}).2.1 "0,0,2,2" rfl rfl rfl]
    with_unfolding_all rfl
  · exact (C3_geometry_priority {filters := some {}} {}).2.2.1 rfl rfl rfl
  · exact (C3_geometry_priority {} {}).2.2.2 rfl

/-! ## Claim C10: totality of `get_geometry_from_filters` -/

/-- C10: the claim asserts `get_geometry_from_filters` is total on every
payload.  Counterexample: a payload whose `filters.geometry` text is
malformed makes the uncaught `GEOSGeometry` parse raise — the call
propagates an error instead of returning a geometry or `None`. -/
theorem C10_claim_counterexample :
    get_geometry_from_filters {filters := some {geometry := some (.malformed "junk")}} =
      .error "junk" := rfl

/-- C10 (amended): `get_geometry_from_filters` returns `None` without
raising when the payload lacks the `filters` key or when the filters
sub-mapping has neither `geometry` nor `in_bbox`; it returns a parsed
geometry for well-formed `geometry` text and a bbox rectangle for a
well-formed `in_bbox`; only malformed `geometry`/`in_bbox` values
propagate a parse error. -/
theorem C10_totality_on_wellformed (data : PayloadData) :
    (data.filters = none → get_geometry_from_filters data = .ok none) ∧
    (∀ f, data.filters = some f → f.geometry = none → f.in_bbox = none →
        get_geometry_from_filters data = .ok none) ∧
    (∀ f r, data.filters = some f → f.geometry = some (.wellFormed r) →
        get_geometry_from_filters data = .ok (some r)) ∧
    (∀ f s r, data.filters = some f → f.geometry = none → f.in_bbox = some s →
        polygonFromBbox (splitStr ',' s) = .ok r →
        get_geometry_from_filters data = .ok (some r)) := by
  refine ⟨?_, ?_, ?_, ?_⟩
  · intro hd
    simp [get_geometry_from_filters, hd]
  · intro f hd hg hb
    simp [get_geometry_from_filters, hd, hg, hb]
  · intro f r hd hg
    simp [get_geometry_from_filters, hd, hg, GEOSGeometryParse, Except.map]
  · intro f s r hd hg hb hp
    simp [get_geometry_from_filters, hd, hg, hb, hp, Except.map]

/-- Witness for C10: the never-raising branches at concrete payloads. -/
theorem C10_totality_witness :
    get_geometry_from_filters {} = .ok none ∧
    get_geometry_from_filters {filters := some {}} = .ok none ∧
    get_geometry_from_filters {filters := some {geometry := some (.wellFormed square2x2)}} =
      .ok (some square2x2) ∧
    get_geometry_from_filters {filters := some {in_bbox := some "0,0,1,1"}} =
      .ok (some square1x1) :=
  ⟨(C10_totality_on_wellformed {}).1 rfl,
   (C10_totality_on_wellformed {filters := some {}}).2.1 {} rfl rfl rfl,
   (C10_totality_on_wellformed {filters := some {geometry := some (.wellFormed square2x2)}}).2.2.1
     {geometry := some (.wellFormed square2x2)} square2x2 rfl rfl,
   (C10_totality_on_wellformed {filters := some {in_bbox := some "0,0,1,1"}}).2.2.2
     {in_bbox := some "0,0,1,1"} "0,0,1,1" square1x1 rfl rfl rfl
     (by with_unfolding_all rfl)⟩

/-! ## Claim C9: uniqueness invariants of the supervise store -/

/-- A failed `any` scan over AOI keys means no stored AOI carries the
key. -/
lemma no_key_of_any_false {l : List AOIStored} {user name : String}
    (h : l.any (aoiHasKey user name) = false) :
    ∀ a ∈ l, ¬(a.user = user ∧ a.name = name) := by
  intro a ha
  have := List.any_eq_false.mp h a ha
  simpa [aoiHasKey] using this

/-- A failed `any` scan over blacklist usernames means no stored row
carries the username. -/
lemma no_username_of_any_false {l : List BlacklistedUser} {username : String}
    (h : l.any (fun x => decide (x.username = username)) = false) :
    ∀ x ∈ l, x.username ≠ username := by
  intro x hx
  have := List.any_eq_false.mp h x hx
  simpa using this

/-- C9: every state reachable from the empty store satisfies both
uniqueness constraints — no two AOIs share a (user, name) pair and no two
blacklist rows share a username; a mutation that fails (in particular a
create or update violating a constraint, which fails with a conflict
validation failure rather than crashing) leaves the stored state
unchanged. -/
theorem C9_uniqueness_invariant (st : SuperviseState) (h : Reachable st) :
    (aoiKeysUnique st ∧ blacklistUnique st) ∧
    (∀ op e, applyOp st op = .error e → stepState st op = st) ∧
    (∀ a, st.aois.any (aoiHasKey a.user a.name) = true →
        applyOp st (.createAOI a) = .error .conflict) ∧
    (∀ b, st.blacklist.any (fun x => decide (x.username = b.username)) = true →
        applyOp st (.addBlacklisted b) = .error .conflict) := by
  refine ⟨?_, ?_, ?_, ?_⟩
  · induction h with
    | init => exact ⟨List.Pairwise.nil, List.Pairwise.nil⟩
    | step st op hst ih =>
      obtain ⟨ih1, ih2⟩ := ih
      cases op with
      | createAOI a =>
        by_cases hc : st.aois.any (aoiHasKey a.user a.name) = true
        · simpa [stepState, applyOp, createAOI, hc] using ⟨ih1, ih2⟩
        · rw [Bool.not_eq_true] at hc
          refine ⟨?_, by simpa [stepState, applyOp, createAOI, hc] using ih2⟩
          have hnew : ∀ b ∈ st.aois, ¬(a.user = b.user ∧ a.name = b.name) := by
            intro b hb hcontra
            exact no_key_of_any_false hc b hb ⟨hcontra.1.symm, hcontra.2.symm⟩
          simpa [stepState, applyOp, createAOI, hc, aoiKeysUnique] using
            List.Pairwise.cons hnew ih1
      | updateAOI user oldName newName f g =>
        by_cases h1 : st.aois.any (aoiHasKey user oldName) = true
        · by_cases h2 :
              (st.aois.filter fun a => !aoiHasKey user oldName a).any
                (aoiHasKey user newName) = true
          · simpa [stepState, applyOp, updateAOI, h1, h2] using ⟨ih1, ih2⟩
          · rw [Bool.not_eq_true] at h2
            refine ⟨?_, by simpa [stepState, applyOp, updateAOI, h1, h2] using ih2⟩
            have hrest : ((st.aois.filter fun a => !aoiHasKey user oldName a).Pairwise
                fun a b => ¬(a.user = b.user ∧ a.name = b.name)) :=
              ih1.filter _
            have hcons : (((⟨user, newName, f, g⟩ : AOIStored) ::
                  st.aois.filter fun a => !aoiHasKey user oldName a).Pairwise
                fun a b => ¬(a.user = b.user ∧ a.name = b.name)) :=
              List.Pairwise.cons
                (fun b hb hcontra =>
                  no_key_of_any_false h2 b hb ⟨hcontra.1.symm, hcontra.2.symm⟩)
                hrest
            simpa [stepState, applyOp, updateAOI, h1, h2, aoiKeysUnique] using hcons
        · simpa [stepState, applyOp, updateAOI, h1] using ⟨ih1, ih2⟩
      | deleteAOI user name =>
        exact ⟨by simpa [stepState, applyOp, deleteAOI, aoiKeysUnique] using ih1.filter _,
          by simpa [stepState, applyOp, deleteAOI] using ih2⟩
      | addBlacklisted b =>
        by_cases hc : st.blacklist.any (fun x => decide (x.username = b.username)) = true
        · simpa [stepState, applyOp, addBlacklisted, hc] using ⟨ih1, ih2⟩
        · rw [Bool.not_eq_true] at hc
          refine ⟨by simpa [stepState, applyOp, addBlacklisted, hc] using ih1, ?_⟩
          have hnew : ∀ x ∈ st.blacklist, b.username ≠ x.username := by
            intro x hx hcontra
            exact no_username_of_any_false hc x hx hcontra.symm
          simpa [stepState, applyOp, addBlacklisted, hc, blacklistUnique] using
            List.Pairwise.cons hnew ih2
      | removeBlacklisted username =>
        exact ⟨by simpa [stepState, applyOp, removeBlacklisted] using ih1,
          by simpa [stepState, applyOp, removeBlacklisted, blacklistUnique] using
            ih2.filter _⟩
  · intro op e he
    unfold stepState
    rw [he]
  · intro a ha
    simp [applyOp, createAOI, ha]
  · intro b hb
    simp [applyOp, addBlacklisted, hb]

/-- Witness for C9: the store holding the single AOI `(u, home)` is
reachable; it satisfies both invariants, and re-creating the same
(user, name) pair fails with a conflict that leaves it unchanged. -/
theorem C9_uniqueness_invariant_witness :
    (aoiKeysUnique (stepState ⟨[], []⟩ (.createAOI ⟨"u", "home", {}, none⟩)) ∧
      blacklistUnique (stepState ⟨[], []⟩ (.createAOI ⟨"u", "home", {}, none⟩))) ∧
    applyOp (stepState ⟨[], []⟩ (.createAOI ⟨"u", "home", {}, none⟩))
        (.createAOI ⟨"u", "home", {}, none⟩) = .error .conflict :=
  ⟨(C9_uniqueness_invariant _ (Reachable.step ⟨[], []⟩ _ Reachable.init)).1,
   (C9_uniqueness_invariant _ (Reachable.step ⟨[], []⟩ _ Reachable.init)).2.2.1
     ⟨"u", "home", {}, none⟩ (by with_unfolding_all rfl)⟩

end OsmCha
